import Mathlib

/-!
Shallow embedding of `scripts/python/calculate_bond_metrics.py`.

Python floats are modelled as exact rationals (`ℚ`); JSON values as the
inductive `JVal`; Python dicts as ordered association lists (unique keys in
practice, first-match lookup, in-place update on assignment).  Fallible
Python operations (`bond[key]`, `float(...)`, `int(...)`, division by zero)
are modelled in the `Except String` monad.
-/

attribute [local semireducible] Rat.add Rat.mul Rat.sub Rat.inv

/-- JSON values as produced by Python's `json.loads`: numbers (ints and
floats collapsed into `ℚ`), strings, booleans, null, arrays and objects. -/
inductive JVal where
  | num (q : ℚ)
  | str (s : String)
  | bool (b : Bool)
  | null
  | arr (xs : List JVal)
  | obj (kvs : List (String × JVal))

/-- A Python dict with string keys, as an ordered association list. -/
abbrev Obj := List (String × JVal)

/-- First-match lookup, `d[k]` / `d.get(k)` on a dict `d`. -/
def lookupKey : Obj → String → Option JVal
  | [], _ => none
  | (k', v) :: rest, k => if k' = k then some v else lookupKey rest k

/-- Dict assignment `d[k] = v`: overwrite in place if the key exists
(keeping its position), otherwise append at the end. -/
def setKey : Obj → String → JVal → Obj
  | [], k, v => [(k, v)]
  | (k', v') :: rest, k, v =>
      if k' = k then (k, v) :: rest else (k', v') :: setKey rest k v

/-- Indexing `bond[k]`: `KeyError` when the key is absent. -/
def getField (bond : Obj) (k : String) : Except String JVal :=
  match lookupKey bond k with
  | some v => .ok v
  | none => .error ("KeyError: " ++ k)

/-- Value of a list of decimal digit characters (validity checked separately). -/
def digitsToNat (cs : List Char) : ℕ :=
  cs.foldl (fun a c => a * 10 + (c.toNat - 48)) 0

/-- Python `int(s)` on a string: optional sign followed by one or more
decimal digits.  (Surrounding whitespace, underscores and other bases are
not modelled; no claim depends on them.) -/
def parseIntString (s : String) : Option ℤ :=
  let digits : List Char → Option ℤ := fun cs =>
    if cs ≠ [] ∧ cs.all Char.isDigit then some (digitsToNat cs) else none
  match s.data with
  | '-' :: cs => (digits cs).map (fun n => -n)
  | '+' :: cs => digits cs
  | cs => digits cs

/-- Python `float(s)` on a string: optional sign, then digits with an
optional decimal point (`"7"`, `"2.5"`, `"1."`, `".5"`).  (Exponents,
`inf`/`nan` and surrounding whitespace are not modelled; no claim depends
on them.) -/
def parseFloatString (s : String) : Option ℚ :=
  let unsigned : List Char → Option ℚ := fun cs =>
    let intPart := cs.takeWhile Char.isDigit
    match cs.dropWhile Char.isDigit with
    | [] => if intPart ≠ [] then some (digitsToNat intPart) else none
    | '.' :: frac =>
        if frac.all Char.isDigit ∧ (intPart ≠ [] ∨ frac ≠ []) then
          some ((digitsToNat intPart : ℚ) + (digitsToNat frac : ℚ) / 10 ^ frac.length)
        else none
    | _ => none
  match s.data with
  | '-' :: cs => (unsigned cs).map Neg.neg
  | '+' :: cs => unsigned cs
  | cs => unsigned cs

/-- Python `float(x)` applied to a JSON value: numbers pass through, booleans
become 0/1, numeric strings are parsed, everything else is a `TypeError` /
`ValueError`. -/
def pyFloat : JVal → Except String ℚ
  | .num q => .ok q
  | .bool b => .ok (if b then 1 else 0)
  | .str s =>
      match parseFloatString s with
      | some q => .ok q
      | none => .error "ValueError: could not convert string to float"
  | _ => .error "TypeError: float() argument must be a string or a real number"

/-- Truncation toward zero, the behaviour of Python `int()` on a float. -/
def ratTrunc (q : ℚ) : ℤ :=
  if 0 ≤ q.num then ((q.num.toNat / q.den : ℕ) : ℤ)
  else -(((-q.num).toNat / q.den : ℕ) : ℤ)

/-- Python `int(x)` applied to a JSON value: numbers truncate toward zero,
booleans become 0/1, integer-literal strings are parsed, everything else is
a `TypeError` / `ValueError`. -/
def pyInt : JVal → Except String ℤ
  | .num q => .ok (ratTrunc q)
  | .bool b => .ok (if b then 1 else 0)
  | .str s =>
      match parseIntString s with
      | some n => .ok n
      | none => .error "ValueError: invalid literal for int() with base 10"
  | _ => .error "TypeError: int() argument must be a string or a number"

/-- The module-level `RATING_PD` table. -/
def RATING_PD : List (String × ℚ) :=
  [("AAA", 2/10000), ("AA+", 3/10000), ("AA", 5/10000), ("AA-", 8/10000),
   ("A+", 12/10000), ("A", 18/10000), ("A-", 25/10000), ("BBB+", 4/1000),
   ("BBB", 7/1000), ("BBB-", 12/1000), ("BB+", 2/100), ("BB", 35/1000),
   ("B+", 6/100)]

/-- The module-level `SECTOR_LGD` table. -/
def SECTOR_LGD : List (String × ℚ) :=
  [("Government", 5/100), ("Banking", 45/100), ("Technology", 40/100),
   ("Healthcare", 35/100), ("Energy", 50/100), ("Utilities", 35/100),
   ("Telecom", 45/100), ("Industrials", 40/100), ("Consumer", 35/100),
   ("Financial Services", 40/100)]

/-- First-match lookup in a rating/sector table. -/
def tblLookup : List (String × ℚ) → String → Option ℚ
  | [], _ => none
  | (k', v) :: rest, k => if k' = k then some v else tblLookup rest k

/-- Python `table.get(key, default)`: the tables have string keys, so any
non-string key simply misses and yields the default. -/
def tableGet (tbl : List (String × ℚ)) (key : JVal) (dflt : ℚ) : ℚ :=
  match key with
  | .str s =>
      match tblLookup tbl s with
      | some v => v
      | none => dflt
  | _ => dflt

/-- Whether a JSON value is a rating string with an entry in `RATING_PD`. -/
def ratingKnown : JVal → Bool
  | .str s => (tblLookup RATING_PD s).isSome
  | _ => false

/-- Whether a JSON value is a sector string with an entry in `SECTOR_LGD`. -/
def sectorKnown : JVal → Bool
  | .str s => (tblLookup SECTOR_LGD s).isSome
  | _ => false

/-- Python `x == "Corporate"` for a JSON value `x`. -/
def isCorporate : JVal → Bool
  | .str s => s = "Corporate"
  | _ => false

/-- One entry of the `cashflows` list built by the loop in
`calculate_metrics`. -/
structure Cashflow where
  year : ℕ
  coupon : ℚ
  principal : ℚ
  total : ℚ
  discounted : ℚ
deriving DecidableEq

/-- The local variables bound by the first seven lines of
`calculate_metrics`: the parsed/coerced required fields.  `ytm` is already
divided by 100, as in the source. -/
structure BondInputs where
  face_value : ℚ
  coupon_rate : ℚ
  ytm : ℚ
  maturity : ℤ
  bond_type : JVal
  rating : JVal
  sector : JVal

/-- The ten computed metrics plus the cashflow list. -/
structure BondMetrics where
  cashflows : List Cashflow
  market_price : ℚ
  macaulay_duration : ℚ
  duration : ℚ
  convexity : ℚ
  pv01 : ℚ
  dv01 : ℚ
  cr01 : ℚ
  pd : ℚ
  lgd : ℚ
  expected_loss : ℚ
deriving DecidableEq

/-- Python `float(bond[k])`. -/
def getFloat (bond : Obj) (k : String) : Except String ℚ :=
  match getField bond k with
  | .ok v => pyFloat v
  | .error e => .error e

/-- Python `int(bond[k])`. -/
def getInt (bond : Obj) (k : String) : Except String ℤ :=
  match getField bond k with
  | .ok v => pyInt v
  | .error e => .error e

/-- The field-reading prefix of `calculate_metrics` (source lines 37-43).
The match arms are ordered so that the error reported is the one raised by
the first failing line, as in Python's sequential evaluation. -/
def parseBond (bond : Obj) : Except String BondInputs :=
  match getFloat bond "faceValue", getFloat bond "couponRate",
        getFloat bond "yieldToMaturity", getInt bond "maturityYears",
        getField bond "type", getField bond "rating", getField bond "sector" with
  | .ok face_value, .ok coupon_rate, .ok ytm, .ok maturity,
    .ok bond_type, .ok rating, .ok sector =>
      .ok { face_value := face_value, coupon_rate := coupon_rate,
            ytm := ytm / 100, maturity := maturity, bond_type := bond_type,
            rating := rating, sector := sector }
  | .error e, _, _, _, _, _, _ => .error e
  | _, .error e, _, _, _, _, _ => .error e
  | _, _, .error e, _, _, _, _ => .error e
  | _, _, _, .error e, _, _, _ => .error e
  | _, _, _, _, .error e, _, _ => .error e
  | _, _, _, _, _, .error e, _ => .error e
  | _, _, _, _, _, _, .error e => .error e

/-- The entries appended by the `for year in range(1, maturity + 1)` loop:
principal is the face value in the final year (bullet repayment) and zero
otherwise, and each total is discounted by `(1 + ytm) ^ year`. -/
def cashflowList (face_value annual_coupon ytm : ℚ) (maturity : ℕ) :
    List Cashflow :=
  (List.range' 1 maturity).map fun year =>
    let principal : ℚ := if year = maturity then face_value else 0
    let coupon := annual_coupon
    let total := coupon + principal
    { year := year, coupon := coupon, principal := principal, total := total,
      discounted := total / (1 + ytm) ^ year }

/-- The cashflow loop as a fallible computation: when `1 + ytm = 0` and the
loop runs at least once, Python's `total / math.pow(1 + ytm, year)` is a
float division by zero and raises; otherwise the loop produces exactly the
entries of `cashflowList`. -/
def buildCashflows (face_value annual_coupon ytm : ℚ) (maturity : ℕ) :
    Except String (List Cashflow) :=
  if 1 + ytm = 0 ∧ 1 ≤ maturity then
    .error "ZeroDivisionError: float division by zero"
  else
    .ok (cashflowList face_value annual_coupon ytm maturity)

/-- Source lines 46-85 after the loop: market price accumulated over the
cashflows, the degenerate branch when it is not positive, then the
sensitivity and credit figures. -/
def metricsFromCashflows (bi : BondInputs) (cashflows : List Cashflow) :
    BondMetrics :=
  let market_price := cashflows.foldl (fun acc cf => acc + cf.discounted) 0
  let mdc : ℚ × ℚ × ℚ :=
    if market_price ≤ 0 then (0, 0, 0)
    else
      let mac :=
        (cashflows.map fun cf => (cf.year : ℚ) * cf.discounted).sum / market_price
      (mac, mac / (1 + bi.ytm),
        (cashflows.map fun cf => (cf.year : ℚ) * ((cf.year : ℚ) + 1) * cf.discounted).sum
          / (market_price * (1 + bi.ytm) * (1 + bi.ytm)))
  let macaulay_duration := mdc.1
  let duration := mdc.2.1
  let convexity := mdc.2.2
  let pv01 := duration * market_price * (1 / 10000)
  let dv01 := pv01
  let cr01 :=
    if isCorporate bi.bond_type then duration * market_price * (1 / 10000) else 0
  let pd := tableGet RATING_PD bi.rating (1 / 1000) * 100
  let lgd := tableGet SECTOR_LGD bi.sector (40 / 100) * 100
  let expected_loss := (pd / 100) * (lgd / 100) * market_price
  { cashflows := cashflows, market_price := market_price,
    macaulay_duration := macaulay_duration, duration := duration,
    convexity := convexity, pv01 := pv01, dv01 := dv01, cr01 := cr01,
    pd := pd, lgd := lgd, expected_loss := expected_loss }

/-- The numeric body of `calculate_metrics` for already-parsed inputs.
`range(1, maturity + 1)` is empty for non-positive maturity, which
`Int.toNat` reproduces. -/
def metricsOfInputs (bi : BondInputs) : Except String BondMetrics :=
  match buildCashflows bi.face_value (bi.face_value * (bi.coupon_rate / 100))
      bi.ytm bi.maturity.toNat with
  | .error e => .error e
  | .ok cashflows => .ok (metricsFromCashflows bi cashflows)

/-- Parsing plus computation: everything in `calculate_metrics` except the
final assembly of the output dict. -/
def computeMetrics (bond : Obj) : Except String BondMetrics :=
  match parseBond bond with
  | .error e => .error e
  | .ok bi => metricsOfInputs bi

/-- One cashflow entry as the dict appended by the loop. -/
def cashflowObj (cf : Cashflow) : JVal :=
  .obj [("year", .num cf.year), ("coupon", .num cf.coupon),
        ("principal", .num cf.principal), ("total", .num cf.total),
        ("discounted", .num cf.discounted)]

/-- Source lines 87-99: `out = dict(bond)` followed by the eleven
assignments of computed fields. -/
def assembleOut (bond : Obj) (m : BondMetrics) : Obj :=
  let out := bond
  let out := setKey out "marketPrice" (.num m.market_price)
  let out := setKey out "macaulayDuration" (.num m.macaulay_duration)
  let out := setKey out "duration" (.num m.duration)
  let out := setKey out "convexity" (.num m.convexity)
  let out := setKey out "pv01" (.num m.pv01)
  let out := setKey out "dv01" (.num m.dv01)
  let out := setKey out "cr01" (.num m.cr01)
  let out := setKey out "pd" (.num m.pd)
  let out := setKey out "lgd" (.num m.lgd)
  let out := setKey out "expectedLoss" (.num m.expected_loss)
  setKey out "cashflows" (.arr (m.cashflows.map cashflowObj))

/-- The whole of `calculate_metrics`: a Bond Result on success, the first
raised exception otherwise. -/
def calculate_metrics (bond : Obj) : Except String Obj :=
  match computeMetrics bond with
  | .error e => .error e
  | .ok m => .ok (assembleOut bond m)

/-- Applying `calculate_metrics` to one element of the `bonds` list: a
non-dict element raises a `TypeError` when indexed. -/
def bondResult (b : JVal) : Except String JVal :=
  match b with
  | .obj kvs =>
      match calculate_metrics kvs with
      | .ok out => .ok (.obj out)
      | .error e => .error e
  | _ => .error "TypeError: indexing a non-dict bond"

/-- The list comprehension `[calculate_metrics(b) for b in bonds]`:
sequential, aborted by the first exception. -/
def mapExcept (f : JVal → Except String JVal) :
    List JVal → Except String (List JVal)
  | [] => .ok []
  | b :: rest =>
      match f b with
      | .error e => .error e
      | .ok r =>
          match mapExcept f rest with
          | .error e => .error e
          | .ok rs => .ok (r :: rs)

/-- The body of `main` given the parsed payload: `payload.get("bonds", [])`
(an `AttributeError` if the payload is not a dict, a `TypeError` if `bonds`
is not a list), then the batch map, then the output payload. -/
def mainResult (payload : JVal) : Except String JVal :=
  match payload with
  | .obj kvs =>
      match (lookupKey kvs "bonds").getD (.arr []) with
      | .arr bs =>
          match mapExcept bondResult bs with
          | .ok rs => .ok (.obj [("bonds", .arr rs)])
          | .error e => .error e
      | _ => .error "TypeError: bonds is not iterable as a list of dicts"
  | _ => .error "AttributeError: payload has no method get"

/-- The whole of `main`: `none` stands for empty standard input, which the
`raw if raw else` default makes `json.loads` parse as the empty dict;
`some v` stands for input text that parses to the JSON value `v`. -/
def pymain (raw : Option JVal) : Except String JVal :=
  mainResult (raw.getD (.obj []))

/-- The eleven keys `calculate_metrics` adds or overwrites. -/
def computedKeys : List String :=
  ["marketPrice", "macaulayDuration", "duration", "convexity", "pv01",
   "dv01", "cr01", "pd", "lgd", "expectedLoss", "cashflows"]

/-- Whether `int(bond["maturityYears"])` succeeds. -/
def maturityParses (bond : Obj) : Bool :=
  (getInt bond "maturityYears").isOk

/-- A bond descriptor built from the required fields, with the maturity
given as a natural-number JSON value. -/
def mkBond (face_value coupon_rate ytm_percent : ℚ) (maturity : ℕ)
    (bond_type rating sector : JVal) : Obj :=
  [("faceValue", .num face_value), ("couponRate", .num coupon_rate),
   ("yieldToMaturity", .num ytm_percent), ("maturityYears", .num maturity),
   ("type", bond_type), ("rating", rating), ("sector", sector)]

/-- The end-to-end example bond of the spec: face value 1000, coupon 5%,
yield 6%, two years, Corporate / BBB / Technology. -/
def exampleBond : Obj :=
  mkBond 1000 5 6 2 (.str "Corporate") (.str "BBB") (.str "Technology")

/-- The metrics the code computes for `exampleBond`, as exact rationals. -/
def exampleMetrics : BondMetrics :=
  { cashflows :=
      [{ year := 1, coupon := 50, principal := 0, total := 50,
         discounted := 2500 / 53 },
       { year := 2, coupon := 50, principal := 1000, total := 1050,
         discounted := 2625000 / 2809 }],
    market_price := 2757500 / 2809,
    macaulay_duration := 2153 / 1103,
    duration := 107650 / 58459,
    convexity := 16015000 / 3098327,
    pv01 := 53825 / 297754,
    dv01 := 53825 / 297754,
    cr01 := 53825 / 297754,
    pd := 7 / 10,
    lgd := 40,
    expected_loss := 7721 / 2809 }

/-- The example bond with `maturityYears` set to the (non-positive) number
zero. -/
def bondMaturityZero : Obj :=
  mkBond 1000 5 6 0 (.str "Corporate") (.str "BBB") (.str "Technology")

/-- The example bond with `maturityYears` set to a string that `int()`
cannot parse. -/
def bondWordMaturity : Obj :=
  [("faceValue", .num 1000), ("couponRate", .num 5), ("yieldToMaturity", .num 6),
   ("maturityYears", .str "two"), ("type", .str "Corporate"),
   ("rating", .str "BBB"), ("sector", .str "Technology")]

/-- A bond whose rating and sector appear in neither lookup table. -/
def bondUnknownCodes : Obj :=
  mkBond 100 0 0 1 (.str "Sovereign") (.str "ZZZ") (.str "Farming")

/-- The metrics the code computes for `bondUnknownCodes`. -/
def bondUnknownMetrics : BondMetrics :=
  { cashflows :=
      [{ year := 1, coupon := 0, principal := 100, total := 100,
         discounted := 100 }],
    market_price := 100, macaulay_duration := 1, duration := 1, convexity := 2,
    pv01 := 1 / 100, dv01 := 1 / 100, cr01 := 0, pd := 1 / 10, lgd := 40,
    expected_loss := 1 / 25 }

/-- A bond whose `maturityYears` coerces to a negative integer. -/
def bondNegMaturity : Obj :=
  [("faceValue", .num 1000), ("couponRate", .num 5), ("yieldToMaturity", .num 6),
   ("maturityYears", .num (-3)), ("type", .str "Corporate"),
   ("rating", .str "AAA"), ("sector", .str "Banking")]

/-- A bond descriptor carrying an extra field the calculator does not know
about. -/
def taggedBond : Obj :=
  [("customTag", .str "kept"), ("faceValue", .num 1000), ("couponRate", .num 5),
   ("yieldToMaturity", .num 6), ("maturityYears", .num 1),
   ("type", .str "Government"), ("rating", .str "AAA"),
   ("sector", .str "Government")]

/-- A bond whose `faceValue` is a non-numeric string. -/
def badBond : Obj := [("faceValue", .str "one thousand")]

/-- A payload with one well-formed bond followed by one malformed bond. -/
def badPayload : Obj := [("bonds", .arr [.obj exampleBond, .obj badBond])]

/-- Folding the market-price accumulator over the cashflows is summing the
discounted column. -/
theorem foldl_discounted_eq_sum (l : List Cashflow) :
    ∀ a : ℚ, l.foldl (fun acc cf => acc + cf.discounted) a
      = a + (l.map fun cf => cf.discounted).sum := by
  induction l with
  | nil => intro a; simp
  | cons cf rest ih => intro a; simp [ih, add_assoc]

/-- Successful indexing is exactly a successful lookup. -/
theorem getField_ok_iff {bond : Obj} {k : String} {v : JVal} :
    getField bond k = .ok v ↔ lookupKey bond k = some v := by
  unfold getField
  cases h : lookupKey bond k <;> simp

/-- Setting one key leaves the lookup of any other key unchanged. -/
theorem lookupKey_setKey_ne {o : Obj} {k' : String} {v : JVal} (k : String)
    (h : k ≠ k') : lookupKey (setKey o k' v) k = lookupKey o k := by
  induction o with
  | nil => simp [setKey, lookupKey, Ne.symm h]
  | cons hd tl ih =>
      obtain ⟨k₀, v₀⟩ := hd
      by_cases h₀ : k₀ = k'
      · subst h₀
        simp [setKey, lookupKey, Ne.symm h]
      · simp [setKey, h₀, lookupKey, ih]

/-- Inversion for a successful `parseBond`: every required field was present
and coerced, and the record holds the coerced values. -/
theorem parseBond_ok_inv {bond : Obj} {bi : BondInputs}
    (h : parseBond bond = .ok bi) :
    ∃ y, getFloat bond "faceValue" = .ok bi.face_value ∧
      getFloat bond "couponRate" = .ok bi.coupon_rate ∧
      getFloat bond "yieldToMaturity" = .ok y ∧ bi.ytm = y / 100 ∧
      getInt bond "maturityYears" = .ok bi.maturity ∧
      getField bond "type" = .ok bi.bond_type ∧
      getField bond "rating" = .ok bi.rating ∧
      getField bond "sector" = .ok bi.sector := by
  unfold parseBond at h
  split at h
  next fv cr y mat ty ra se hfv hcr hy hmat hty hra hse =>
    cases h
    exact ⟨y, hfv, hcr, hy, rfl, hmat, hty, hra, hse⟩
  all_goals exact Except.noConfusion h

/-- Inversion for a successful `computeMetrics`: parsing succeeded, the
cashflow loop did not divide by zero, and the metrics are the pure
computation over the resulting cashflows. -/
theorem computeMetrics_ok_inv {bond : Obj} {m : BondMetrics}
    (h : computeMetrics bond = .ok m) :
    ∃ bi cfs, parseBond bond = .ok bi ∧
      buildCashflows bi.face_value (bi.face_value * (bi.coupon_rate / 100))
        bi.ytm bi.maturity.toNat = .ok cfs ∧
      m = metricsFromCashflows bi cfs := by
  unfold computeMetrics at h
  split at h
  · exact Except.noConfusion h
  next bi hbi =>
    unfold metricsOfInputs at h
    split at h
    · exact Except.noConfusion h
    next cfs hcfs =>
      cases h
      exact ⟨bi, cfs, hbi, hcfs, rfl⟩

/-- Splitting off the last year of the loop range. -/
theorem range'_one_concat (n : ℕ) :
    List.range' 1 (n + 1) = List.range' 1 n ++ [1 + n] := by
  have h := List.range'_append_1 1 n 1
  simp only [List.range'_one] at h
  rw [show n + 1 = 1 + n from Nat.add_comm n 1]
  exact h.symm

/-- The discounted column of the generated cashflows, as a function of the
year. -/
theorem cashflowList_map_discounted (fv ac ytm : ℚ) (N : ℕ) :
    (cashflowList fv ac ytm N).map (fun cf => cf.discounted)
      = (List.range' 1 N).map fun y =>
          (ac + if y = N then fv else 0) / (1 + ytm) ^ y := by
  simp [cashflowList, List.map_map]

/-- With a zero annual coupon every year but the last contributes nothing,
and the last contributes the discounted face value. -/
theorem zero_coupon_sum (fv ytm : ℚ) (n : ℕ) :
    ((List.range' 1 (n + 1)).map fun y =>
        ((0 : ℚ) + if y = n + 1 then fv else 0) / (1 + ytm) ^ y).sum
      = fv / (1 + ytm) ^ (n + 1) := by
  rw [range'_one_concat, List.map_append, List.sum_append]
  have h0 : ((List.range' 1 n).map fun y =>
      ((0 : ℚ) + if y = n + 1 then fv else 0) / (1 + ytm) ^ y).sum = 0 := by
    apply List.sum_eq_zero
    intro x hx
    simp only [List.mem_map] at hx
    obtain ⟨y, hy, rfl⟩ := hx
    rw [List.mem_range'_1] at hy
    have hne : y ≠ n + 1 := by omega
    simp [hne]
  rw [h0, zero_add]
  simp [Nat.add_comm 1 n]

/-- A failing element makes the whole sequential map fail. -/
theorem mapExcept_isOk_false {f : JVal → Except String JVal} {bs : List JVal}
    {b : JVal} (hb : b ∈ bs) (hf : (f b).isOk = false) :
    (mapExcept f bs).isOk = false := by
  induction bs with
  | nil => cases hb
  | cons hd tl ih =>
      unfold mapExcept
      rcases List.mem_cons.mp hb with hhd | htl
      · subst hhd
        cases hfb : f b
        · rfl
        · rw [hfb] at hf
          exact absurd hf (by simp [Except.isOk, Except.toBool])
      · cases hfb : f hd
        · rfl
        · have := ih htl
          cases hm : mapExcept f tl
          · rfl
          · rw [hm] at this
            exact absurd this (by simp [Except.isOk, Except.toBool])

/-- Claim C1, counterexample: the example bond with `maturityYears = 0`
(which is not a positive integer) does NOT make the calculator fail — it
produces a Bond Result. -/
theorem claim_C1_counterexample :
    lookupKey bondMaturityZero "maturityYears" = some (.num 0) ∧
    (calculate_metrics bondMaturityZero).isOk = true := ⟨rfl, rfl⟩

/-- Claim C1, amended: the calculator fails only when
`int(bond["maturityYears"])` itself fails (field missing, or a value
`int()` cannot coerce, such as a non-numeric or non-integer string); a
numeric `maturityYears` is truncated toward zero and never aborts, even
when zero, negative or fractional. -/
theorem claim_C1_amended (bond : Obj) (h : maturityParses bond = false) :
    (calculate_metrics bond).isOk = false := by
  cases hpb : parseBond bond with
  | ok bi =>
      obtain ⟨y, _, _, _, _, hmat, _, _, _⟩ := parseBond_ok_inv hpb
      unfold maturityParses at h
      rw [hmat] at h
      exact absurd h (by simp [Except.isOk, Except.toBool])
  | error e =>
      unfold calculate_metrics computeMetrics
      rw [hpb]
      rfl

/-- Witness for the amended claim C1 at a bond whose maturity is the
unparseable string "two". -/
theorem claim_C1_amended_witness :
    maturityParses bondWordMaturity = false ∧
    (calculate_metrics bondWordMaturity).isOk = false :=
  ⟨rfl, claim_C1_amended bondWordMaturity rfl⟩

/-- Claim C2, counterexample: on the spec's end-to-end example bond the
computed market price is strictly between 981.6 and 981.7 (so not ≈ 981.90)
and pv01 is greater than 0.17 (so not ≈ 0.01808). -/
theorem claim_C2_counterexample :
    computeMetrics exampleBond = .ok exampleMetrics ∧
    9816/10 < exampleMetrics.market_price ∧
    exampleMetrics.market_price < 9817/10 ∧
    17/100 < exampleMetrics.pv01 := by
  refine ⟨rfl, by decide, by decide, by decide⟩

/-- Claim C2, amended: the example bond's exact outputs.  The cashflows,
pd and lgd are as the claim states; the corrected year-2 discounted value
is 2625000/2809 ≈ 934.50, the corrected market price 2757500/2809 ≈ 981.67,
and the corrected pv01 = dv01 = cr01 ≈ 0.18077; macaulayDuration ≈ 1.9519,
duration ≈ 1.8415 and expectedLoss ≈ 2.749 as claimed. -/
theorem claim_C2_amended :
    computeMetrics exampleBond = .ok exampleMetrics ∧
    98166/100 < exampleMetrics.market_price ∧
    exampleMetrics.market_price < 98167/100 ∧
    18077/100000 < exampleMetrics.pv01 ∧
    exampleMetrics.pv01 < 18078/100000 ∧
    exampleMetrics.dv01 = exampleMetrics.pv01 ∧
    exampleMetrics.cr01 = exampleMetrics.pv01 ∧
    19519/10000 < exampleMetrics.macaulay_duration ∧
    exampleMetrics.macaulay_duration < 19520/10000 ∧
    18414/10000 < exampleMetrics.duration ∧
    exampleMetrics.duration < 18415/10000 ∧
    exampleMetrics.pd = 7/10 ∧ exampleMetrics.lgd = 40 ∧
    27486/10000 < exampleMetrics.expected_loss ∧
    exampleMetrics.expected_loss < 27490/10000 := by
  exact ⟨rfl, by decide, by decide, by decide, by decide, by decide, by decide,
    by decide, by decide, by decide, by decide, by decide, by decide,
    by decide, by decide⟩

/-- Claim C4: the market price is exactly the sum of the discounted column
of the emitted cashflows. -/
theorem claim_C4_price_is_sum (bond : Obj) (m : BondMetrics)
    (h : computeMetrics bond = .ok m) :
    (m.cashflows.map fun cf => cf.discounted).sum = m.market_price := by
  obtain ⟨bi, cfs, _, _, hm⟩ := computeMetrics_ok_inv h
  subst hm
  simp [metricsFromCashflows, foldl_discounted_eq_sum]

/-- Witness for claim C4 at the spec's example bond. -/
theorem claim_C4_witness :
    (exampleMetrics.cashflows.map fun cf => cf.discounted).sum
      = exampleMetrics.market_price :=
  claim_C4_price_is_sum exampleBond exampleMetrics rfl

/-- Claim C5: cr01 equals pv01 exactly when the `type` field is the literal
string "Corporate", and is 0 for any other value of `type`. -/
theorem claim_C5_cr01 (bond : Obj) (m : BondMetrics)
    (h : computeMetrics bond = .ok m) :
    (lookupKey bond "type" = some (JVal.str "Corporate") → m.cr01 = m.pv01) ∧
    (lookupKey bond "type" ≠ some (JVal.str "Corporate") → m.cr01 = 0) := by
  obtain ⟨bi, cfs, hbi, _, hm⟩ := computeMetrics_ok_inv h
  obtain ⟨y, _, _, _, _, _, hty, _, _⟩ := parseBond_ok_inv hbi
  rw [getField_ok_iff] at hty
  subst hm
  constructor
  · intro hcorp
    rw [hty] at hcorp
    injection hcorp with hcorp
    simp [metricsFromCashflows, isCorporate, hcorp]
  · intro hncorp
    have hne : bi.bond_type ≠ JVal.str "Corporate" := by
      intro hh
      exact hncorp (by rw [hty, hh])
    have hic : isCorporate bi.bond_type = false := by
      cases hbt : bi.bond_type <;> simp [isCorporate]
      next s =>
        intro hs
        exact hne (by rw [hbt, hs])
    simp [metricsFromCashflows, hic]

/-- Witness for claim C5 at the spec's example bond, which is Corporate. -/
theorem claim_C5_witness : exampleMetrics.cr01 = exampleMetrics.pv01 :=
  (claim_C5_cr01 exampleBond exampleMetrics rfl).1 rfl

/-- Claim C7: absent input is parsed as the empty dict, and both it and an
explicitly empty payload produce the output payload with an empty bonds
list, not an error. -/
theorem claim_C7_empty_payload :
    pymain none = .ok (.obj [("bonds", .arr [])]) ∧
    pymain (some (.obj [])) = .ok (.obj [("bonds", .arr [])]) := ⟨rfl, rfl⟩

/-- Claim C3: a zero-coupon bond with positive integer maturity N and yield
r percent (with 1 + r/100 positive) has market price exactly
face value / (1 + r/100) ^ N. -/
theorem claim_C3_zero_coupon (F r : ℚ) (N : ℕ) (ty ra se : JVal)
    (hF : 0 < F) (hN : 1 ≤ N) (hr : 0 < 1 + r / 100) :
    Except.map BondMetrics.market_price
      (computeMetrics (mkBond F 0 r N ty ra se))
      = .ok (F / (1 + r / 100) ^ N) := by
  have hpb : parseBond (mkBond F 0 r N ty ra se)
      = .ok ⟨F, 0, r / 100, (N : ℤ), ty, ra, se⟩ := by
    simp [parseBond, mkBond, getFloat, getInt, getField, lookupKey, pyFloat,
      pyInt, ratTrunc]
  obtain ⟨n, rfl⟩ : ∃ n, N = n + 1 := ⟨N - 1, by omega⟩
  have hbc : buildCashflows F (F * (0 / 100)) (r / 100) (n + 1)
      = .ok (cashflowList F (F * (0 / 100)) (r / 100) (n + 1)) := by
    rw [buildCashflows, if_neg]
    rintro ⟨h1, _⟩
    exact hr.ne' h1
  have hsum : ((cashflowList F (F * (0 / 100)) (r / 100) (n + 1)).map
      (fun cf => cf.discounted)).sum = F / (1 + r / 100) ^ (n + 1) := by
    rw [cashflowList_map_discounted]
    have hfn : ∀ y : ℕ,
        (F * (0 / 100) + if y = n + 1 then F else 0) / (1 + r / 100) ^ y
          = ((0 : ℚ) + if y = n + 1 then F else 0) / (1 + r / 100) ^ y := by
      intro y
      norm_num
    simp only [hfn]
    exact zero_coupon_sum F (r / 100) n
  unfold computeMetrics
  rw [hpb]
  show Except.map BondMetrics.market_price
      (metricsOfInputs ⟨F, 0, r / 100, ((n + 1 : ℕ) : ℤ), ty, ra, se⟩)
    = .ok (F / (1 + r / 100) ^ (n + 1))
  unfold metricsOfInputs
  simp only [Int.toNat_natCast]
  rw [hbc]
  simp only [Except.map]
  rw [show (metricsFromCashflows ⟨F, 0, r / 100, ((n + 1 : ℕ) : ℤ), ty, ra, se⟩
      (cashflowList F (F * (0 / 100)) (r / 100) (n + 1))).market_price
    = (cashflowList F (F * (0 / 100)) (r / 100) (n + 1)).foldl
        (fun acc cf => acc + cf.discounted) 0 from rfl]
  rw [foldl_discounted_eq_sum, zero_add, hsum]

/-- Witness for claim C3 at a 1000 face-value, 6 percent, two-year
zero-coupon bond. -/
theorem claim_C3_witness :
    Except.map BondMetrics.market_price
      (computeMetrics (mkBond 1000 0 6 2 (.str "Corporate") (.str "BBB")
        (.str "Technology")))
      = .ok (1000 / (1 + 6 / 100) ^ 2) :=
  claim_C3_zero_coupon 1000 6 2 (.str "Corporate") (.str "BBB")
    (.str "Technology") (by decide) (by decide) (by decide)

/-- Claim C6: an unknown rating yields pd = 0.1 and an unknown sector
yields lgd = 40; neither is an error (the metrics are still produced). -/
theorem claim_C6_defaults (bond : Obj) (m : BondMetrics) (r s : JVal)
    (h : computeMetrics bond = .ok m)
    (hr : lookupKey bond "rating" = some r)
    (hs : lookupKey bond "sector" = some s) :
    (ratingKnown r = false → m.pd = 1 / 10) ∧
    (sectorKnown s = false → m.lgd = 40) := by
  obtain ⟨bi, cfs, hbi, _, hm⟩ := computeMetrics_ok_inv h
  obtain ⟨y, _, _, _, _, _, _, hra, hse⟩ := parseBond_ok_inv hbi
  rw [getField_ok_iff] at hra hse
  rw [hra] at hr
  rw [hse] at hs
  injection hr with hr
  injection hs with hs
  subst hm hr hs
  constructor
  · intro hk
    have hdef : tableGet RATING_PD bi.rating (1 / 1000) = 1 / 1000 := by
      cases hbt : bi.rating <;> simp [tableGet]
      next str =>
        rw [hbt] at hk
        simp [ratingKnown] at hk
        simp [hk]
    show (metricsFromCashflows bi cfs).pd = 1 / 10
    rw [show (metricsFromCashflows bi cfs).pd
      = tableGet RATING_PD bi.rating (1 / 1000) * 100 from rfl]
    rw [hdef]
    decide
  · intro hk
    have hdef : tableGet SECTOR_LGD bi.sector (40 / 100) = 40 / 100 := by
      cases hbt : bi.sector <;> simp [tableGet]
      next str =>
        rw [hbt] at hk
        simp [sectorKnown] at hk
        simp [hk]
    show (metricsFromCashflows bi cfs).lgd = 40
    rw [show (metricsFromCashflows bi cfs).lgd
      = tableGet SECTOR_LGD bi.sector (40 / 100) * 100 from rfl]
    rw [hdef]
    decide

/-- Witness for claim C6 at a bond rated "ZZZ" in sector "Farming",
neither of which is in the tables. -/
theorem claim_C6_witness :
    bondUnknownMetrics.pd = 1 / 10 ∧ bondUnknownMetrics.lgd = 40 :=
  have h := claim_C6_defaults bondUnknownCodes bondUnknownMetrics
    (.str "ZZZ") (.str "Farming") rfl rfl rfl
  ⟨h.1 rfl, h.2 rfl⟩

/-- Claim C8: if any bond of the batch fails, the whole invocation fails
and no output payload is produced. -/
theorem claim_C8_batch_aborts (kvs : Obj) (bs : List JVal)
    (h1 : lookupKey kvs "bonds" = some (.arr bs))
    (h2 : ∃ b ∈ bs, (bondResult b).isOk = false) :
    (pymain (some (.obj kvs))).isOk = false := by
  obtain ⟨b, hb, hf⟩ := h2
  have hmap := mapExcept_isOk_false hb hf
  show (mainResult (.obj kvs)).isOk = false
  simp only [mainResult, h1, Option.getD_some]
  cases hm : mapExcept bondResult bs
  · rfl
  · rw [hm] at hmap
    exact absurd hmap (by simp [Except.isOk, Except.toBool])

/-- Witness for claim C8 at a two-bond batch whose second bond has a
non-numeric face value. -/
theorem claim_C8_witness : (pymain (some (.obj badPayload))).isOk = false :=
  claim_C8_batch_aborts badPayload [.obj exampleBond, .obj badBond] rfl
    ⟨.obj badBond, List.Mem.tail _ (List.Mem.head _), rfl⟩

/-- Claim C9: every input field whose key is not one of the eleven computed
output keys appears in the Bond Result with its original value. -/
theorem claim_C9_passthrough (bond : Obj) (k : String)
    (hk : k ∉ computedKeys) (h : (calculate_metrics bond).isOk = true) :
    Except.map (fun out => lookupKey out k) (calculate_metrics bond)
      = .ok (lookupKey bond k) := by
  simp only [computedKeys, List.mem_cons, List.not_mem_nil, or_false,
    not_or] at hk
  obtain ⟨h1, h2, h3, h4, h5, h6, h7, h8, h9, h10, h11⟩ := hk
  unfold calculate_metrics at h ⊢
  cases hcm : computeMetrics bond
  · rw [hcm] at h
    exact absurd h (by simp [Except.isOk, Except.toBool])
  next m =>
    simp only [Except.map]
    rw [show lookupKey (assembleOut bond m) k = lookupKey bond k from ?_]
    · unfold assembleOut
      rw [lookupKey_setKey_ne k h11, lookupKey_setKey_ne k h10,
        lookupKey_setKey_ne k h9, lookupKey_setKey_ne k h8,
        lookupKey_setKey_ne k h7, lookupKey_setKey_ne k h6,
        lookupKey_setKey_ne k h5, lookupKey_setKey_ne k h4,
        lookupKey_setKey_ne k h3, lookupKey_setKey_ne k h2,
        lookupKey_setKey_ne k h1]

/-- Witness for claim C9 at a bond carrying the extra field "customTag". -/
theorem claim_C9_witness :
    Except.map (fun out => lookupKey out "customTag")
      (calculate_metrics taggedBond) = .ok (lookupKey taggedBond "customTag") :=
  claim_C9_passthrough taggedBond "customTag" (by decide) rfl

/-- Claim C10: a maturity that coerces to a non-positive integer yields a
Bond Result with empty cashflows, all price and sensitivity metrics zero,
and pd and lgd still taken from the rating and sector lookups. -/
theorem claim_C10_degenerate (bond : Obj) (bi : BondInputs)
    (h : parseBond bond = .ok bi) (hm : bi.maturity ≤ 0) :
    computeMetrics bond = .ok
      { cashflows := [], market_price := 0, macaulay_duration := 0,
        duration := 0, convexity := 0, pv01 := 0, dv01 := 0, cr01 := 0,
        pd := tableGet RATING_PD bi.rating (1 / 1000) * 100,
        lgd := tableGet SECTOR_LGD bi.sector (40 / 100) * 100,
        expected_loss := 0 } := by
  unfold computeMetrics
  rw [h]
  show metricsOfInputs bi = _
  unfold metricsOfInputs
  rw [Int.toNat_of_nonpos hm]
  rw [buildCashflows, if_neg (by simp)]
  simp only [cashflowList, List.range'_zero, List.map_nil]
  simp [metricsFromCashflows]

/-- Witness for claim C10 at a bond with maturityYears -3. -/
theorem claim_C10_witness :
    computeMetrics bondNegMaturity = .ok
      { cashflows := [], market_price := 0, macaulay_duration := 0,
        duration := 0, convexity := 0, pv01 := 0, dv01 := 0, cr01 := 0,
        pd := tableGet RATING_PD (.str "AAA") (1 / 1000) * 100,
        lgd := tableGet SECTOR_LGD (.str "Banking") (40 / 100) * 100,
        expected_loss := 0 } :=
  claim_C10_degenerate bondNegMaturity
    ⟨1000, 5, 6 / 100, -3, .str "Corporate", .str "AAA", .str "Banking"⟩
    rfl (by decide)
